import Mathlib

/-!
# Verification of the earthquake-monitor map engine

Shallow embedding of the custom canvas map component of the
`earthquakemonitor` repository (`src/components/EarthquakeMap.tsx` and
`src/services/earthquakeService.ts`) together with proofs of the spec's
testable properties.  JavaScript numbers are modelled by rationals `ℚ`
(the arithmetic in the component is exact on the inputs considered), and
the few places where JavaScript's `NaN` semantics matter (malformed
marker geometry) use an explicit tagged numeric type `JVal`.
-/

namespace EQMap

/-- A 2-D point (device pixels or logical plane coordinates). -/
@[ext]
structure Pt where
  x : ℚ
  y : ℚ
deriving DecidableEq, Repr

/-- The viewport transform held by the component:
`const [zoom, setZoom] = useState(1)` and
`const [pan, setPan] = useState({x:0,y:0})`. -/
structure Viewport where
  zoom : ℚ
  pan : Pt
deriving DecidableEq, Repr

/-- `handleWheel`, line 33: `const delta = e.deltaY > 0 ? 0.9 : 1.1`. -/
def wheelDelta (deltaY : ℚ) : ℚ :=
  if deltaY > 0 then 9/10 else 11/10

/-- `handleWheel`, line 34: `Math.max(0.5, Math.min(5, z))`. -/
def clampZoom (z : ℚ) : ℚ :=
  max (1/2) (min 5 z)

/-- `handleWheel` (EarthquakeMap.tsx lines 31–35): updates only the zoom,
`setZoom(prev => Math.max(0.5, Math.min(5, prev * delta)))`; the pan
state is not touched by this handler. -/
def handleWheelV (deltaY : ℚ) (v : Viewport) : Viewport :=
  { v with zoom := clampZoom (v.zoom * wheelDelta deltaY) }

/-- Device → plane conversion as performed in `handleClick`
(lines 225–226): `clickX = (e.clientX - rect.left - pan.x) / zoom` with
the rect offset folded into the device point by the caller. -/
def toPlane (v : Viewport) (d : Pt) : Pt :=
  ⟨(d.x - v.pan.x) / v.zoom, (d.y - v.pan.y) / v.zoom⟩

/-- Plane → device conversion as realised by the canvas transform in
`drawMap` (lines 81–83): `ctx.translate(pan.x, pan.y); ctx.scale(zoom, zoom)`
maps a plane point `p` to the device point `p * zoom + pan`. -/
def toDevice (v : Viewport) (p : Pt) : Pt :=
  ⟨p.x * v.zoom + v.pan.x, p.y * v.zoom + v.pan.y⟩

/-- Equirectangular projection used throughout the component
(e.g. lines 90–91): `x = ((lng + 180) / 360) * width`,
`y = ((90 - lat) / 180) * height`. -/
def project (width height lng lat : ℚ) : Pt :=
  ⟨(lng + 180) / 360 * width, (90 - lat) / 180 * height⟩

/-- `getMagnitudeSize` (earthquakeService.ts): marker radius in device
pixels as a step function of magnitude. -/
def getMagnitudeSize (magnitude : ℚ) : ℚ :=
  if magnitude ≥ 7 then 24
  else if magnitude ≥ 6 then 20
  else if magnitude ≥ 5 then 16
  else if magnitude ≥ 4 then 12
  else if magnitude ≥ 3 then 10
  else 8

/-- `getMagnitudeColor` (earthquakeService.ts): marker fill colour as a
step function of magnitude. -/
def getMagnitudeColor (magnitude : ℚ) : String :=
  if magnitude ≥ 7 then "#dc2626"
  else if magnitude ≥ 6 then "#ea580c"
  else if magnitude ≥ 5 then "#f59e0b"
  else if magnitude ≥ 4 then "#eab308"
  else if magnitude ≥ 3 then "#84cc16"
  else "#22c55e"

/-- Bucket index of a magnitude: 0 for `<3`, 1 for `[3,4)`, …, 5 for
`≥7`.  Both `getMagnitudeSize` and `getMagnitudeColor` are functions of
this index alone. -/
def magBucket (magnitude : ℚ) : ℕ :=
  if magnitude ≥ 7 then 5
  else if magnitude ≥ 6 then 4
  else if magnitude ≥ 5 then 3
  else if magnitude ≥ 4 then 2
  else if magnitude ≥ 3 then 1
  else 0

/-- The ascending list of bucket radii (device pixels). -/
def bucketSizes : List ℚ := [8, 10, 12, 16, 20, 24]

/-- The ascending list of bucket colours, green → red. -/
def bucketColors : List String :=
  ["#22c55e", "#84cc16", "#eab308", "#f59e0b", "#ea580c", "#dc2626"]

/-- An earthquake marker with well-formed geometry: `quake.id`,
`quake.geometry.coordinates = [lng, lat, …]`, `quake.properties.mag`. -/
structure Quake where
  id : String
  lng : ℚ
  lat : ℚ
  mag : ℚ
deriving DecidableEq, Repr

/-- The per-marker hit test of `handleClick` (lines 229–236): project the
marker to plane coordinates and compare the Euclidean distance from the
click's plane point `c` with `getMagnitudeSize(mag)`.  The source
computes `Math.sqrt(dx*dx + dy*dy) <= size`; since `size > 0`, this is
equivalent to the square-free comparison `dx*dx + dy*dy <= size*size`
used here. -/
def hitQuake (width height : ℚ) (c : Pt) (q : Quake) : Bool :=
  let p := project width height q.lng q.lat
  decide ((c.x - p.x) ^ 2 + (c.y - p.y) ^ 2 ≤ getMagnitudeSize q.mag ^ 2)

/-- `handleClick` (lines 218–241), assuming the dragging guard passed:
convert the device click point to plane coordinates and select the first
marker (in list order) whose plane distance is within its radius;
`onSelectEarthquake` receives the returned marker, `none` means the
callback is not invoked. -/
def handleClickQ (width height : ℚ) (v : Viewport) (click : Pt)
    (qs : List Quake) : Option Quake :=
  qs.find? (hitQuake width height (toPlane v click))

/-- The search-coordinates effect (lines 44–61): project the searched
geo point, set `pan = (w/2 - x*2, h/2 - y*2)` and `zoom = 2`. -/
def centerOnSearch (width height lat lng : ℚ) (_v : Viewport) : Viewport :=
  let p := project width height lng lat
  { zoom := 2, pan := ⟨width / 2 - p.x * 2, height / 2 - p.y * 2⟩ }

/-! ## Interaction-controller state machine

The component's mutable state and its event handlers, applied in the
order the browser dispatches events.  A mouse gesture produces
`mouseDown`, zero or more `mouseMove`s, `mouseUp` (or `mouseLeave`),
and — when press and release land on the canvas — a trailing `click`.
React flushes each handler's state updates before the next native event
is dispatched, so sequential application of the handlers is faithful. -/

/-- The full component state: `zoom`, `pan`, `isDragging`, `dragStart`,
plus the payload of the last `onSelectEarthquake` callback (`none` while
the callback has not fired). -/
structure MapState where
  zoom : ℚ
  pan : Pt
  isDragging : Bool
  dragStart : Pt
  selected : Option Quake
deriving DecidableEq, Repr

/-- Initial state: `useState(1)`, `useState({x:0,y:0})`,
`useState(false)`, `useState({x:0,y:0})`. -/
def initState : MapState :=
  { zoom := 1, pan := ⟨0, 0⟩, isDragging := false, dragStart := ⟨0, 0⟩,
    selected := none }

/-- Input events: wheel ticks, search-coordinate commands, and the mouse
events wired to the canvas (`onMouseDown`, `onMouseMove`, `onMouseUp`,
`onMouseLeave`, `onClick`).  Mouse points are client coordinates. -/
inductive MEvent where
  | wheel (deltaY : ℚ)
  | search (lat lng : ℚ)
  | mouseDown (client : Pt)
  | mouseMove (client : Pt)
  | mouseUp
  | mouseLeave
  | click (client : Pt)
deriving DecidableEq, Repr

/-- One event-handler step of the component, canvas dimensions
`width × height`, canvas bounding rect at `(rectL, rectT)`, marker list
`qs`:
* `wheel` — lines 31–35, `setZoom(prev => clamp(prev * delta))`;
* `search` — lines 44–61, recenter pan and set zoom to 2;
* `mouseDown` — lines 200–203, `setIsDragging(true)`,
  `setDragStart({x: clientX - pan.x, y: clientY - pan.y})`;
* `mouseMove` — lines 205–212, while dragging
  `setPan({x: clientX - dragStart.x, y: clientY - dragStart.y})`;
* `mouseUp` / `mouseLeave` — lines 214–216, `setIsDragging(false)`;
* `click` — lines 218–241, `if (isDragging) return` then hit-test and
  call `onSelectEarthquake` on the first hit. -/
def stepEvent (width height rectL rectT : ℚ) (qs : List Quake)
    (e : MEvent) (s : MapState) : MapState :=
  match e with
  | .wheel deltaY => { s with zoom := clampZoom (s.zoom * wheelDelta deltaY) }
  | .search lat lng =>
      let v := centerOnSearch width height lat lng ⟨s.zoom, s.pan⟩
      { s with zoom := v.zoom, pan := v.pan }
  | .mouseDown c =>
      { s with isDragging := true,
               dragStart := ⟨c.x - s.pan.x, c.y - s.pan.y⟩ }
  | .mouseMove c =>
      if s.isDragging then
        { s with pan := ⟨c.x - s.dragStart.x, c.y - s.dragStart.y⟩ }
      else s
  | .mouseUp => { s with isDragging := false }
  | .mouseLeave => { s with isDragging := false }
  | .click c =>
      if s.isDragging then s
      else
        match handleClickQ width height ⟨s.zoom, s.pan⟩
            ⟨c.x - rectL, c.y - rectT⟩ qs with
        | some q => { s with selected := some q }
        | none => s

/-- Run a list of events from a state. -/
def runEvents (width height rectL rectT : ℚ) (qs : List Quake)
    (es : List MEvent) (s : MapState) : MapState :=
  es.foldl (fun t e => stepEvent width height rectL rectT qs e t) s

/-! ## JavaScript number semantics for malformed geometry

`quake.geometry.coordinates` is typed `number[]`; malformed data may
miss entries.  `const [lng, lat] = quake.geometry.coordinates` on a
too-short array yields `undefined`, and every arithmetic use of
`undefined` produces `NaN`, which then propagates.  `JVal` models this:
a coordinate read past the end of the array is tagged `nan` directly
(sound here because the read value is only ever used arithmetically). -/

/-- A JavaScript number: a finite rational or `NaN`. -/
inductive JVal where
  | num (q : ℚ)
  | nan
deriving DecidableEq, Repr

/-- JavaScript addition: `NaN` absorbs. -/
def JVal.add : JVal → JVal → JVal
  | .num a, .num b => .num (a + b)
  | _, _ => .nan

/-- JavaScript subtraction: `NaN` absorbs. -/
def JVal.sub : JVal → JVal → JVal
  | .num a, .num b => .num (a - b)
  | _, _ => .nan

/-- JavaScript multiplication: `NaN` absorbs.  (Multiplication by
infinity does not arise on the modelled paths.) -/
def JVal.mul : JVal → JVal → JVal
  | .num a, .num b => .num (a * b)
  | _, _ => .nan

/-- JavaScript division as used on the modelled paths.  A zero divisor
gives a non-finite result (`±Infinity` or `NaN` in JavaScript), all of
which the canvas treats exactly like `NaN` (the drawing call is a
no-op), so it is folded into `nan`. -/
def JVal.div : JVal → JVal → JVal
  | .num a, .num b => if b = 0 then .nan else .num (a / b)
  | _, _ => .nan

/-- `v <= c` for a JavaScript number `v` and finite `c`: false whenever
`v` is `NaN`. -/
def JVal.leQ (v : JVal) (c : ℚ) : Bool :=
  match v with
  | .num a => decide (a ≤ c)
  | .nan => false

/-- A marker as received from the data layer: the coordinates array may
be malformed (shorter than 2). -/
structure MQuake where
  id : String
  coordinates : List ℚ
  mag : ℚ
deriving DecidableEq, Repr

/-- Array destructuring `const [lng, lat] = coords`: element `i` when
present, else `undefined` — tagged `nan` since it is only used in
arithmetic. -/
def coordAt (l : List ℚ) (i : ℕ) : JVal :=
  match l.get? i with
  | some q => .num q
  | none => .nan

/-- The plane x-coordinate of a marker, `((lng + 180) / 360) * width`,
in JavaScript semantics. -/
def projX (width : ℚ) (coords : List ℚ) : JVal :=
  (((coordAt coords 0).add (.num 180)).div (.num 360)).mul (.num width)

/-- The plane y-coordinate of a marker, `((90 - lat) / 180) * height`,
in JavaScript semantics. -/
def projY (height : ℚ) (coords : List ℚ) : JVal :=
  ((((JVal.num 90).sub (coordAt coords 1)).div (.num 180))).mul (.num height)

/-- One circle painted by the marker loop of `drawMap`. -/
structure Circle where
  x : ℚ
  y : ℚ
  r : ℚ
  color : String
deriving DecidableEq, Repr

/-- One iteration of the marker loop in `drawMap` (lines 88–110):
`ctx.arc(x, y, size / zoom, 0, 2π)` draws nothing when any of its
arguments is non-finite (HTML canvas specification), so a circle is
produced exactly when `x`, `y` and `size / zoom` are all finite. -/
def drawMarker (width height zoom : ℚ) (q : MQuake) : Option Circle :=
  match projX width q.coordinates, projY height q.coordinates,
      (JVal.num (getMagnitudeSize q.mag)).div (.num zoom) with
  | .num a, .num b, .num r =>
      some ⟨a, b, r, getMagnitudeColor q.mag⟩
  | _, _, _ => none

/-- The whole marker render pass: `earthquakes.forEach(quake => …)`. -/
def drawQuakes (width height zoom : ℚ) (qs : List MQuake) : List Circle :=
  qs.filterMap (drawMarker width height zoom)

/-- The per-marker hit test of `handleClick` under JavaScript number
semantics: `Math.sqrt(d2) <= size` is false when `d2` is `NaN`
(`Math.sqrt(NaN) = NaN` and `NaN <= size` is false) and otherwise
equivalent to `d2 <= size * size` since `size > 0`. -/
def hitJ (width height cx cy : ℚ) (q : MQuake) : Bool :=
  let dx := (JVal.num cx).sub (projX width q.coordinates)
  let dy := (JVal.num cy).sub (projY height q.coordinates)
  ((dx.mul dx).add (dy.mul dy)).leQ (getMagnitudeSize q.mag ^ 2)

/-- `handleClick`'s marker loop under JavaScript number semantics,
`(cx, cy)` the click's plane point. -/
def handleClickJ (width height cx cy : ℚ) (qs : List MQuake) :
    Option MQuake :=
  qs.find? (hitJ width height cx cy)

/-! ## Helper lemmas -/

lemma JVal.sub_nan (v : JVal) : v.sub .nan = .nan := by
  cases v <;> rfl

lemma JVal.mul_nan (v : JVal) : v.mul .nan = .nan := by
  cases v <;> rfl

lemma JVal.nan_mul (v : JVal) : JVal.nan.mul v = .nan := rfl

lemma JVal.add_nan (v : JVal) : v.add .nan = .nan := by
  cases v <;> rfl

lemma JVal.nan_leQ (c : ℚ) : JVal.nan.leQ c = false := rfl

lemma coordAt_one_eq_nan {l : List ℚ} (h : l.length < 2) :
    coordAt l 1 = .nan := by
  match l, h with
  | [], _ => rfl
  | [a], _ => rfl

lemma projY_eq_nan {l : List ℚ} (height : ℚ) (h : l.length < 2) :
    projY height l = .nan := by
  simp [projY, coordAt_one_eq_nan h, JVal.sub_nan, JVal.div, JVal.mul]

lemma drawMarker_eq_none {q : MQuake} (width height zoom : ℚ)
    (h : q.coordinates.length < 2) :
    drawMarker width height zoom q = none := by
  unfold drawMarker
  rw [projY_eq_nan height h]
  rcases projX width q.coordinates with a | _ <;> rfl

lemma hitJ_eq_false {q : MQuake} (width height cx cy : ℚ)
    (h : q.coordinates.length < 2) :
    hitJ width height cx cy q = false := by
  unfold hitJ
  rw [projY_eq_nan height h]
  simp [JVal.sub_nan, JVal.mul_nan, JVal.add_nan, JVal.nan_leQ]

lemma find?_append_middle {α : Type} (p : α → Bool) (l₁ l₂ : List α)
    (a : α) (h : p a = false) :
    (l₁ ++ a :: l₂).find? p = (l₁ ++ l₂).find? p := by
  induction l₁ with
  | nil => simp [List.find?_cons, h]
  | cons b t ih =>
      by_cases hb : p b = true
      · simp [List.find?_cons, hb]
      · simp only [Bool.not_eq_true] at hb
        simp [List.find?_cons, hb, ih]

/-- `clampZoom` output is at least 1/2. -/
lemma clampZoom_lower (z : ℚ) : 1/2 ≤ clampZoom z :=
  le_max_left _ _

/-- `clampZoom` output is at most 5. -/
lemma clampZoom_upper (z : ℚ) : clampZoom z ≤ 5 :=
  max_le (by norm_num) (min_le_left _ _)

/-- One event step keeps `zoom` inside `[1/2, 5]`. -/
lemma stepEvent_zoom_bounds (width height rectL rectT : ℚ)
    (qs : List Quake) (e : MEvent) (s : MapState)
    (h1 : 1/2 ≤ s.zoom) (h2 : s.zoom ≤ 5) :
    1/2 ≤ (stepEvent width height rectL rectT qs e s).zoom ∧
      (stepEvent width height rectL rectT qs e s).zoom ≤ 5 := by
  cases e with
  | wheel deltaY =>
      exact ⟨clampZoom_lower _, clampZoom_upper _⟩
  | search lat lng =>
      constructor <;> norm_num [stepEvent, centerOnSearch]
  | mouseDown c => exact ⟨h1, h2⟩
  | mouseMove c =>
      simp only [stepEvent]
      split <;> exact ⟨h1, h2⟩
  | mouseUp => exact ⟨h1, h2⟩
  | mouseLeave => exact ⟨h1, h2⟩
  | click c =>
      simp only [stepEvent]
      split
      · exact ⟨h1, h2⟩
      · rcases handleClickQ width height ⟨s.zoom, s.pan⟩
            ⟨c.x - rectL, c.y - rectT⟩ qs with _ | q <;> exact ⟨h1, h2⟩

/-- Any event list keeps `zoom` inside `[1/2, 5]`, from any state that
is inside. -/
lemma runEvents_zoom_bounds (width height rectL rectT : ℚ)
    (qs : List Quake) (es : List MEvent) :
    ∀ s : MapState, 1/2 ≤ s.zoom → s.zoom ≤ 5 →
      1/2 ≤ (runEvents width height rectL rectT qs es s).zoom ∧
        (runEvents width height rectL rectT qs es s).zoom ≤ 5 := by
  induction es with
  | nil => exact fun s h1 h2 => ⟨h1, h2⟩
  | cons e es ih =>
      intro s h1 h2
      have hb := stepEvent_zoom_bounds width height rectL rectT qs e s h1 h2
      exact ih _ hb.1 hb.2

lemma div_eq_div_iff_eq_or_zero {a z z' : ℚ} (hz : z ≠ 0) (hz' : z' ≠ 0) :
    a / z' = a / z ↔ z' = z ∨ a = 0 := by
  rw [div_eq_div_iff hz' hz, mul_eq_mul_left_iff]
  constructor
  · rintro (h | h)
    · exact Or.inl h.symm
    · exact Or.inr h
  · rintro (h | h)
    · exact Or.inl h.symm
    · exact Or.inr h

/-! ## Claim theorems -/

/-- C8.  Viewport transform inverse law: for every viewport with
`zoom > 0` and every device point `d`, converting to plane coordinates
(subtract pan, divide by zoom) and back to device coordinates (multiply
by zoom, add pan) returns `d`: `toDevice (toPlane d) = d`. -/
theorem toDevice_toPlane_inverse (v : Viewport) (d : Pt) (hz : 0 < v.zoom) :
    toDevice v (toPlane v d) = d := by
  have hz0 : v.zoom ≠ 0 := ne_of_gt hz
  ext
  · show (d.x - v.pan.x) / v.zoom * v.zoom + v.pan.x = d.x
    field_simp
  · show (d.y - v.pan.y) / v.zoom * v.zoom + v.pan.y = d.y
    field_simp

/-- Witness for C8 at `zoom = 2`, `pan = (3, 4)`, `d = (5, 6)`. -/
theorem toDevice_toPlane_inverse_witness :
    0 < (Viewport.mk 2 ⟨3, 4⟩).zoom ∧
      toDevice ⟨2, ⟨3, 4⟩⟩ (toPlane ⟨2, ⟨3, 4⟩⟩ ⟨5, 6⟩) = ⟨5, 6⟩ :=
  ⟨by norm_num, toDevice_toPlane_inverse ⟨2, ⟨3, 4⟩⟩ ⟨5, 6⟩ (by norm_num)⟩

/-- C9.  Magnitude bucketing: marker radius and colour are step
functions of the bucket index (`<3`, `[3,4)`, `[4,5)`, `[5,6)`, `[6,7)`,
`≥7`), the bucket index and the radius are monotone in the magnitude,
radius and colour are read off the ascending tables
`[8,10,12,16,20,24]` and green→lime→yellow→amber→orange→red, and a
magnitude-6.5 marker gets radius 20 and colour `#ea580c`. -/
theorem magnitude_bucketing (m₁ m₂ : ℚ) (h : m₁ ≤ m₂) :
    magBucket m₁ ≤ magBucket m₂ ∧
    getMagnitudeSize m₁ ≤ getMagnitudeSize m₂ ∧
    getMagnitudeSize m₁ = bucketSizes.getD (magBucket m₁) 0 ∧
    getMagnitudeColor m₁ = bucketColors.getD (magBucket m₁) "" ∧
    getMagnitudeSize (13/2) = 20 ∧ getMagnitudeColor (13/2) = "#ea580c" := by
  refine ⟨?_, ?_, ?_, ?_, by norm_num [getMagnitudeSize],
    by norm_num [getMagnitudeColor]⟩
  · unfold magBucket
    split_ifs <;> first | omega | linarith
  · unfold getMagnitudeSize
    split_ifs <;> linarith
  · unfold getMagnitudeSize magBucket bucketSizes
    split_ifs <;> rfl
  · unfold getMagnitudeColor magBucket bucketColors
    split_ifs <;> rfl

/-- Witness for C9 at magnitudes 3 and 6.5. -/
theorem magnitude_bucketing_witness :
    (3 : ℚ) ≤ 13/2 ∧ getMagnitudeSize 3 ≤ getMagnitudeSize (13/2) :=
  ⟨by norm_num, (magnitude_bucketing 3 (13/2) (by norm_num)).2.1⟩

/-- C10.  A wheel event mutates only the zoom component of the state:
pan (both components), the drag flags and the selection are exactly what
they were before, and the zoom becomes the clamped product. -/
theorem wheel_mutates_only_zoom (width height rectL rectT : ℚ)
    (qs : List Quake) (deltaY : ℚ) (s : MapState) :
    (stepEvent width height rectL rectT qs (.wheel deltaY) s).pan = s.pan ∧
    (stepEvent width height rectL rectT qs (.wheel deltaY) s).isDragging =
      s.isDragging ∧
    (stepEvent width height rectL rectT qs (.wheel deltaY) s).dragStart =
      s.dragStart ∧
    (stepEvent width height rectL rectT qs (.wheel deltaY) s).selected =
      s.selected ∧
    (stepEvent width height rectL rectT qs (.wheel deltaY) s).zoom =
      clampZoom (s.zoom * wheelDelta deltaY) := by
  exact ⟨rfl, rfl, rfl, rfl, rfl⟩

/-- C3 (amended).  The search-centering effect always sets `zoom = 2`
(there is no target-zoom parameter) and sets pan so that the searched
geo point's projected plane point lands exactly at the device-space
canvas centre `(width/2, height/2)`. -/
theorem centerOnSearch_centers (width height lat lng : ℚ) (v : Viewport) :
    (centerOnSearch width height lat lng v).zoom = 2 ∧
    toDevice (centerOnSearch width height lat lng v)
        (project width height lng lat) = ⟨width / 2, height / 2⟩ := by
  refine ⟨rfl, ?_⟩
  ext
  · show (lng + 180) / 360 * width * 2 +
        (width / 2 - (lng + 180) / 360 * width * 2) = width / 2
    ring
  · show (90 - lat) / 180 * height * 2 +
        (height / 2 - (90 - lat) / 180 * height * 2) = height / 2
    ring

/-- C3 counterexample.  In the claim's concrete scenario (zoom 1,
pan (0,0), centering on (37.7749, −122.4194) on an 800×600 canvas with
requested target zoom 5) the code produces zoom 2, not 5: the requested
target zoom is ignored. -/
theorem centerOnSearch_zoom_is_two_not_five :
    (centerOnSearch 800 600 (377749/10000) (-1224194/10000)
        ⟨1, ⟨0, 0⟩⟩).zoom = 2 ∧ (2 : ℚ) ≠ 5 :=
  ⟨rfl, by norm_num⟩

/-- C4.  Zoom clamping invariant: starting from the initial state
(`zoom = 1`), every sequence of events — wheel ticks with arbitrary
`deltaY`, search-centering commands, and any mouse events — leaves the
zoom inside `[0.5, 5]`. -/
theorem zoom_always_clamped (width height rectL rectT : ℚ)
    (qs : List Quake) (es : List MEvent) :
    1/2 ≤ (runEvents width height rectL rectT qs es initState).zoom ∧
      (runEvents width height rectL rectT qs es initState).zoom ≤ 5 :=
  runEvents_zoom_bounds width height rectL rectT qs es initState
    (by norm_num [initState]) (by norm_num [initState])

/-- C1 (amended).  A wheel event multiplies the zoom by 0.9 (for
`deltaY > 0`) or 1.1 and clamps it to `[0.5, 5]`, but leaves the pan
untouched; consequently the plane point under the device pivot `p` is
preserved exactly when the clamped zoom did not change (or the pivot
sits at the pan origin) — the handler is not pivot-preserving in
general. -/
theorem handleWheel_pan_unchanged (deltaY : ℚ) (v : Viewport) (p : Pt)
    (h1 : 1/2 ≤ v.zoom) (_h2 : v.zoom ≤ 5) :
    (handleWheelV deltaY v).pan = v.pan ∧
    (handleWheelV deltaY v).zoom = clampZoom (v.zoom * wheelDelta deltaY) ∧
    (toPlane (handleWheelV deltaY v) p = toPlane v p ↔
      (handleWheelV deltaY v).zoom = v.zoom ∨ p = v.pan) := by
  have hz : v.zoom ≠ 0 := by
    intro h
    rw [h] at h1
    norm_num at h1
  have hz' : clampZoom (v.zoom * wheelDelta deltaY) ≠ 0 := by
    have := clampZoom_lower (v.zoom * wheelDelta deltaY)
    intro h
    rw [h] at this
    norm_num at this
  refine ⟨rfl, rfl, ?_⟩
  show Pt.mk ((p.x - v.pan.x) / clampZoom (v.zoom * wheelDelta deltaY))
      ((p.y - v.pan.y) / clampZoom (v.zoom * wheelDelta deltaY)) =
      ⟨(p.x - v.pan.x) / v.zoom, (p.y - v.pan.y) / v.zoom⟩ ↔ _
  rw [Pt.mk.injEq, div_eq_div_iff_eq_or_zero hz hz',
    div_eq_div_iff_eq_or_zero hz hz', sub_eq_zero, sub_eq_zero]
  have hp : p = v.pan ↔ p.x = v.pan.x ∧ p.y = v.pan.y := Pt.ext_iff
  rw [hp]
  have hzz : (handleWheelV deltaY v).zoom = v.zoom ↔
      clampZoom (v.zoom * wheelDelta deltaY) = v.zoom := Iff.rfl
  rw [hzz]
  tauto

/-- Witness for C1's amended theorem at `zoom = 1`, `pan = (0,0)`,
pivot `(400, 300)`, `deltaY = 1`. -/
theorem handleWheel_pan_unchanged_witness :
    1/2 ≤ (Viewport.mk 1 ⟨0, 0⟩).zoom ∧ (Viewport.mk 1 ⟨0, 0⟩).zoom ≤ 5 ∧
      (handleWheelV 1 ⟨1, ⟨0, 0⟩⟩).pan = (Viewport.mk 1 ⟨0, 0⟩).pan :=
  ⟨by norm_num, by norm_num,
    (handleWheel_pan_unchanged 1 ⟨1, ⟨0, 0⟩⟩ ⟨400, 300⟩ (by norm_num)
      (by norm_num)).1⟩

/-- C1 counterexample.  At zoom 1 (inside `[0.5, 5]`), pan `(0,0)`, a
wheel tick with `deltaY = 1` at device pivot `(400, 300)` changes the
plane point under the pivot: before the tick it is `(400, 300)`, after
it is `(4000/9, 3000/9)` — the wheel handler adjusts no pan, so the
geographic point under the cursor moves. -/
theorem wheel_zoom_moves_pivot :
    1/2 ≤ (1 : ℚ) ∧ (1 : ℚ) ≤ 5 ∧
    toPlane (handleWheelV 1 ⟨1, ⟨0, 0⟩⟩) ⟨400, 300⟩ ≠
      toPlane ⟨1, ⟨0, 0⟩⟩ ⟨400, 300⟩ := by
  refine ⟨by norm_num, by norm_num, ?_⟩
  norm_num [handleWheelV, toPlane, clampZoom, wheelDelta, min_def, max_def,
    Pt.mk.injEq]

/-- C2 (amended).  Hit-testing on click, for `zoom > 0`: the click's
device point is converted to plane coordinates by `toPlane` and the
first marker (in list order) whose projected plane point lies within
its radius is selected, where the radius compared against the plane
distance is the device-pixel radius `getMagnitudeSize(mag)` itself —
not divided by zoom.  Any selected marker is in the list and within
that radius (so a marker farther than `getMagnitudeSize(mag)` in plane
units is never selected), the hit predicate is exactly the squared
comparison, and a marker exactly at the click's plane point guarantees
the selection callback fires. -/
theorem hit_testing_characterisation (width height : ℚ) (v : Viewport)
    (click : Pt) (qs : List Quake) (_hz : 0 < v.zoom) :
    (∀ q, handleClickQ width height v click qs = some q →
        q ∈ qs ∧ hitQuake width height (toPlane v click) q = true) ∧
    (∀ q, hitQuake width height (toPlane v click) q = true ↔
        ((toPlane v click).x - (project width height q.lng q.lat).x) ^ 2 +
          ((toPlane v click).y - (project width height q.lng q.lat).y) ^ 2 ≤
          getMagnitudeSize q.mag ^ 2) ∧
    ((∃ q ∈ qs, project width height q.lng q.lat = toPlane v click) →
        (handleClickQ width height v click qs).isSome = true) := by
  refine ⟨?_, ?_, ?_⟩
  · intro q h
    exact ⟨List.mem_of_find?_eq_some h, List.find?_some h⟩
  · intro q
    simp [hitQuake]
  · rintro ⟨q, hq, hp⟩
    rw [handleClickQ, List.find?_isSome]
    refine ⟨q, hq, ?_⟩
    show decide
        (((toPlane v click).x - (project width height q.lng q.lat).x) ^ 2 +
          ((toPlane v click).y - (project width height q.lng q.lat).y) ^ 2 ≤
          getMagnitudeSize q.mag ^ 2) = true
    rw [← hp]
    simp only [sub_self, decide_eq_true_eq]
    simpa using sq_nonneg (getMagnitudeSize q.mag)

/-- Witness for C2's amended theorem: a marker exactly under the click
is selected at zoom 2. -/
theorem hit_testing_characterisation_witness :
    0 < (Viewport.mk 2 ⟨0, 0⟩).zoom ∧
      (handleClickQ 360 180 ⟨2, ⟨0, 0⟩⟩ ⟨0, 0⟩
        [⟨"q2", -180, 90, 3⟩]).isSome = true :=
  ⟨by norm_num,
    (hit_testing_characterisation 360 180 ⟨2, ⟨0, 0⟩⟩ ⟨0, 0⟩
        [⟨"q2", -180, 90, 3⟩] (by norm_num)).2.2
      ⟨⟨"q2", -180, 90, 3⟩, by simp,
        by norm_num [project, toPlane, Pt.mk.injEq]⟩⟩

/-- C5 evidence (code bug).  In the browser a `click` event is
dispatched only after the `mouseup` of the gesture, and `mouseup` has
already reset `isDragging` to `false`, so the guard
`if (isDragging) return` in `handleClick` never suppresses the click
that concludes a drag.  Concretely: on a 360×180 canvas with one marker
at geo `(-180, 90)`, the gesture mouse-down at `(0,0)` (which activates
dragging, first conjunct), drag to `(50, 60)`, mouse-up, then the
trailing click at `(50, 60)` — the selection callback fires with the
marker even though the gesture was a drag. -/
theorem click_after_drag_fires_selection :
    (runEvents 360 180 0 0 [⟨"q1", -180, 90, 0⟩]
        [.mouseDown ⟨0, 0⟩] initState).isDragging = true ∧
    (runEvents 360 180 0 0 [⟨"q1", -180, 90, 0⟩]
        [.mouseDown ⟨0, 0⟩, .mouseMove ⟨50, 60⟩, .mouseUp, .click ⟨50, 60⟩]
        initState).selected = some ⟨"q1", -180, 90, 0⟩ := by
  constructor
  · rfl
  · have hs1 : stepEvent 360 180 0 0 [⟨"q1", -180, 90, 0⟩]
        (.mouseDown ⟨0, 0⟩) initState =
        ⟨1, ⟨0, 0⟩, true, ⟨0, 0⟩, none⟩ := by
      norm_num [stepEvent, initState, MapState.mk.injEq, Pt.mk.injEq]
    have hs2 : stepEvent 360 180 0 0 [⟨"q1", -180, 90, 0⟩]
        (.mouseMove ⟨50, 60⟩) ⟨1, ⟨0, 0⟩, true, ⟨0, 0⟩, none⟩ =
        ⟨1, ⟨50, 60⟩, true, ⟨0, 0⟩, none⟩ := by
      norm_num [stepEvent, MapState.mk.injEq, Pt.mk.injEq]
    have hs3 : stepEvent 360 180 0 0 [⟨"q1", -180, 90, 0⟩]
        MEvent.mouseUp ⟨1, ⟨50, 60⟩, true, ⟨0, 0⟩, none⟩ =
        ⟨1, ⟨50, 60⟩, false, ⟨0, 0⟩, none⟩ := rfl
    have hc : handleClickQ 360 180 ⟨1, ⟨50, 60⟩⟩ ⟨50 - 0, 60 - 0⟩
        [⟨"q1", -180, 90, 0⟩] = some ⟨"q1", -180, 90, 0⟩ := by
      rw [handleClickQ]
      exact List.find?_cons_of_pos _
        (by norm_num [hitQuake, toPlane, project, getMagnitudeSize,
          decide_eq_true_eq])
    have hs4 : stepEvent 360 180 0 0 [⟨"q1", -180, 90, 0⟩]
        (.click ⟨50, 60⟩) ⟨1, ⟨50, 60⟩, false, ⟨0, 0⟩, none⟩ =
        ⟨1, ⟨50, 60⟩, false, ⟨0, 0⟩, some ⟨"q1", -180, 90, 0⟩⟩ := by
      simp only [stepEvent, Bool.false_eq_true, if_false, hc]
    show (stepEvent 360 180 0 0 [⟨"q1", -180, 90, 0⟩] (.click ⟨50, 60⟩)
        (stepEvent 360 180 0 0 [⟨"q1", -180, 90, 0⟩] MEvent.mouseUp
          (stepEvent 360 180 0 0 [⟨"q1", -180, 90, 0⟩] (.mouseMove ⟨50, 60⟩)
            (stepEvent 360 180 0 0 [⟨"q1", -180, 90, 0⟩] (.mouseDown ⟨0, 0⟩)
              initState)))).selected = some ⟨"q1", -180, 90, 0⟩
    rw [hs1, hs2, hs3, hs4]

/-- C2 counterexample.  At zoom 2, pan `(0,0)`, canvas 360×180, a click
at device point `(12, 0)` has plane point `(6, 0)`; the single marker at
geo `(lng, lat) = (-180, 90)` projects to plane `(0, 0)` and has
magnitude 0, so `getMagnitudeSize = 8` and the claim's
radius-in-plane-units is `8 / 2 = 4`.  Its plane distance 6 exceeds 4,
yet the code selects it (`distance <= size` compares against 8): the
claim's "never selected beyond size/zoom" is false. -/
theorem hit_testing_beyond_scaled_radius :
    handleClickQ 360 180 ⟨2, ⟨0, 0⟩⟩ ⟨12, 0⟩ [⟨"q1", -180, 90, 0⟩] =
      some ⟨"q1", -180, 90, 0⟩ ∧
    ((toPlane ⟨2, ⟨0, 0⟩⟩ ⟨12, 0⟩).x - (project 360 180 (-180) 90).x) ^ 2 +
      ((toPlane ⟨2, ⟨0, 0⟩⟩ ⟨12, 0⟩).y - (project 360 180 (-180) 90).y) ^ 2 =
      36 ∧
    (getMagnitudeSize 0 / (2 : ℚ)) ^ 2 = 16 ∧ (36 : ℚ) > 16 := by
  refine ⟨?_, ?_, ?_, by norm_num⟩
  · rw [handleClickQ]
    exact List.find?_cons_of_pos _
      (by norm_num [hitQuake, toPlane, project, getMagnitudeSize,
        decide_eq_true_eq])
  · norm_num [toPlane, project]
  · norm_num [getMagnitudeSize]

/-- C6.  A marker whose coordinates array is missing its entries (fewer
than the two destructured values `lng`, `lat`) is drawn as nothing
(`ctx.arc` silently ignores non-finite arguments), can never pass the
hit test (a `NaN` distance compares false), and removing it from the
marker list changes neither the render output nor the click result —
the remaining markers are still processed, the pass is not aborted. -/
theorem malformed_marker_skipped (width height zoom cx cy : ℚ)
    (qs₁ qs₂ : List MQuake) (q : MQuake) (h : q.coordinates.length < 2) :
    drawMarker width height zoom q = none ∧
    hitJ width height cx cy q = false ∧
    drawQuakes width height zoom (qs₁ ++ q :: qs₂) =
      drawQuakes width height zoom (qs₁ ++ qs₂) ∧
    handleClickJ width height cx cy (qs₁ ++ q :: qs₂) =
      handleClickJ width height cx cy (qs₁ ++ qs₂) := by
  refine ⟨drawMarker_eq_none width height zoom h,
    hitJ_eq_false width height cx cy h, ?_, ?_⟩
  · simp [drawQuakes, List.filterMap_append, List.filterMap_cons,
      drawMarker_eq_none width height zoom h]
  · rw [handleClickJ, handleClickJ]
    exact find?_append_middle _ qs₁ qs₂ q
      (hitJ_eq_false width height cx cy h)

/-- Witness for C6: one well-formed marker surrounded by a marker with
an empty coordinates array. -/
theorem malformed_marker_skipped_witness :
    (([] : List ℚ).length < 2) ∧
    (drawMarker 360 180 1 ⟨"bad", [], 5⟩ = none ∧
     hitJ 360 180 0 0 ⟨"bad", [], 5⟩ = false ∧
     drawQuakes 360 180 1 ([⟨"ok", [-180, 90], 4⟩] ++
        ⟨"bad", [], 5⟩ :: [⟨"ok2", [0, 0], 2⟩]) =
       drawQuakes 360 180 1 ([⟨"ok", [-180, 90], 4⟩] ++ [⟨"ok2", [0, 0], 2⟩]) ∧
     handleClickJ 360 180 0 0 ([⟨"ok", [-180, 90], 4⟩] ++
        ⟨"bad", [], 5⟩ :: [⟨"ok2", [0, 0], 2⟩]) =
       handleClickJ 360 180 0 0
        ([⟨"ok", [-180, 90], 4⟩] ++ [⟨"ok2", [0, 0], 2⟩])) :=
  ⟨by norm_num,
    malformed_marker_skipped 360 180 1 0 0 [⟨"ok", [-180, 90], 4⟩]
      [⟨"ok2", [0, 0], 2⟩] ⟨"bad", [], 5⟩ (by norm_num)⟩

/-- While `isDragging` holds, a block of pointer-move events sets the
pan to the last move point minus the (unchanged) drag start. -/
lemma runMoves_pan (width height rectL rectT : ℚ) (qs : List Quake)
    (moves : List Pt) :
    ∀ (e : Pt), moves.getLast? = some e →
      ∀ s : MapState, s.isDragging = true →
        (runEvents width height rectL rectT qs
            (moves.map MEvent.mouseMove) s).pan =
          ⟨e.x - s.dragStart.x, e.y - s.dragStart.y⟩ := by
  induction moves with
  | nil => intro e he; simp at he
  | cons m ms ih =>
      intro e he s hd
      cases ms with
      | nil =>
          simp only [List.getLast?_singleton, Option.some.injEq] at he
          subst he
          show (stepEvent width height rectL rectT qs (.mouseMove m) s).pan = _
          rw [stepEvent]
          rw [if_pos hd]
      | cons m₂ ms₂ =>
          rw [List.getLast?_cons_cons] at he
          show (runEvents width height rectL rectT qs
              ((m₂ :: ms₂).map MEvent.mouseMove)
              (stepEvent width height rectL rectT qs (.mouseMove m) s)).pan = _
          have hstep : stepEvent width height rectL rectT qs (.mouseMove m) s =
              { s with pan := ⟨m.x - s.dragStart.x, m.y - s.dragStart.y⟩ } := by
            rw [stepEvent]
            rw [if_pos hd]
          rw [hstep]
          exact ih e he _ hd

/-- C7.  Drag is absolute-delta from gesture start: from any state, a
gesture that presses at device point `a` and then moves through any
non-empty pointer path ending at `e` leaves `pan = e − a + pan₀`; in
particular two different pointer paths with the same start and end
points produce the same final pan. -/
theorem drag_absolute_delta (width height rectL rectT : ℚ)
    (qs : List Quake) (s : MapState) (a e : Pt) (moves moves' : List Pt)
    (h : moves.getLast? = some e) (h' : moves'.getLast? = some e) :
    (runEvents width height rectL rectT qs
        (MEvent.mouseDown a :: moves.map MEvent.mouseMove) s).pan =
      ⟨e.x - a.x + s.pan.x, e.y - a.y + s.pan.y⟩ ∧
    (runEvents width height rectL rectT qs
        (MEvent.mouseDown a :: moves.map MEvent.mouseMove) s).pan =
      (runEvents width height rectL rectT qs
        (MEvent.mouseDown a :: moves'.map MEvent.mouseMove) s).pan := by
  have key : ∀ ms : List Pt, ms.getLast? = some e →
      (runEvents width height rectL rectT qs
          (MEvent.mouseDown a :: ms.map MEvent.mouseMove) s).pan =
        ⟨e.x - a.x + s.pan.x, e.y - a.y + s.pan.y⟩ := by
    intro ms hms
    show (runEvents width height rectL rectT qs (ms.map MEvent.mouseMove)
        (stepEvent width height rectL rectT qs (.mouseDown a) s)).pan = _
    rw [runMoves_pan width height rectL rectT qs ms e hms _ rfl]
    show Pt.mk (e.x - (a.x - s.pan.x)) (e.y - (a.y - s.pan.y)) = _
    rw [Pt.mk.injEq]
    constructor <;> ring
  exact ⟨key moves h, (key moves h).trans (key moves' h').symm⟩

/-- Witness for C7: press at `(3,4)` from the initial state, move
through `(10,2)` then `(7,9)`; the alternative path goes to `(7,9)`
directly; the final pan is `(7−3+0, 9−4+0) = (4,5)` both ways. -/
theorem drag_absolute_delta_witness :
    ([(⟨10, 2⟩ : Pt), ⟨7, 9⟩].getLast? = some ⟨7, 9⟩) ∧
    (runEvents 360 180 0 0 []
        (MEvent.mouseDown ⟨3, 4⟩ ::
          [(⟨10, 2⟩ : Pt), ⟨7, 9⟩].map MEvent.mouseMove) initState).pan =
      ⟨7 - 3 + initState.pan.x, 9 - 4 + initState.pan.y⟩ :=
  ⟨rfl,
    (drag_absolute_delta 360 180 0 0 [] initState ⟨3, 4⟩ ⟨7, 9⟩
      [⟨10, 2⟩, ⟨7, 9⟩] [⟨7, 9⟩] rfl rfl).1⟩

end EQMap
